import Mathlib

/-!
Shallow embedding of the `terraform-provider-googlesiteverification` provider
(`internal/provider/provider.go` and `internal/provider/domain_key_data_source.go`).

Remote HTTP calls are modelled by environments holding the result each remote
endpoint would return; every operation additionally returns the ordered list of
remote calls it issued, so temporal (call-ordering) properties can be stated.
Terraform framework `types.String` values are modelled by `TFString`
(null or a known string; the unknown state is not exercised by any claim),
and `types.List` of strings by `Option (List String)` (null vs known list).
-/

/-- Terraform framework `types.String`: null or a known string value. -/
inductive TFString where
  | null
  | value (s : String)
deriving DecidableEq, Repr

/-- `types.String.IsNull()`. -/
def TFString.isNull : TFString → Bool
  | TFString.null => true
  | TFString.value _ => false

/-- `types.String.ValueString()`: the known value, or "" when null. -/
def TFString.valueString : TFString → String
  | TFString.null => ""
  | TFString.value s => s

/-- Hex digit character for `n < 16` (lowercase, as Go's `%q` uses). -/
def hexDigitChar (n : Nat) : Char :=
  if n < 10 then Char.ofNat (48 + n) else Char.ofNat (87 + n)

/-- Escaping of one character under Go's `%q` verb (the cases relevant to
provider configuration strings: quote, backslash, common control characters;
other printable characters are emitted unchanged). -/
def goEscapeChar (c : Char) : List Char :=
  if c = '"' then ['\\', '"']
  else if c = '\\' then ['\\', '\\']
  else if c = '\n' then ['\\', 'n']
  else if c = '\t' then ['\\', 't']
  else if c = '\r' then ['\\', 'r']
  else if c.toNat < 32 then ['\\', 'x', hexDigitChar (c.toNat / 16), hexDigitChar (c.toNat % 16)]
  else [c]

/-- Go's `fmt.Sprintf("%q", s)`: the string wrapped in double quotes with
inner characters escaped. -/
def goQuote (s : String) : String :=
  "\"" ++ String.mk (s.toList.map goEscapeChar).flatten ++ "\""

/-- Terraform framework `basetypes.StringValue.String()`: `"<null>"` for a
null value, and `fmt.Sprintf("%q", value)` for a known value. -/
def TFString.render : TFString → String
  | TFString.null => "<null>"
  | TFString.value s => goQuote s

/-- Go `strings.HasSuffix`. -/
def goHasSuffix (s suffix : String) : Bool :=
  suffix.toList.isSuffixOf s.toList

/-- Go `strings.TrimSuffix`: removes one trailing occurrence of `suffix`. -/
def goTrimSuffix (s suffix : String) : String :=
  if goHasSuffix s suffix then s.dropRight suffix.length else s

/-- Go `strings.Trim(s, cutset)` for a one-character cutset: removes all
leading and trailing occurrences of `c`. -/
def goTrim (s : String) (c : Char) : String :=
  String.mk ((((s.toList.dropWhile (fun x => x == c)).reverse.dropWhile (fun x => x == c)).reverse))

/-- Go `strings.Contains sub s`: `sub` occurs as a contiguous substring of `s`. -/
def containsSubstring (s sub : String) : Bool :=
  (List.range (s.toList.length + 1)).any
    (fun i => (s.toList.drop i).take sub.toList.length == sub.toList)

/-- `forceDot` from `domain_key_data_source.go`: append a trailing dot when
the string does not already end in one. -/
def forceDot (str : String) : String :=
  if goHasSuffix str "." then str else str ++ "."

/-- Value of one hex digit, `none` for a non-hex character
(as in Go's `net/url` unhex helper). -/
def hexDigitVal : Char → Option Nat
  | c =>
    if 48 ≤ c.toNat ∧ c.toNat ≤ 57 then some (c.toNat - 48)
    else if 97 ≤ c.toNat ∧ c.toNat ≤ 102 then some (c.toNat - 87)
    else if 65 ≤ c.toNat ∧ c.toNat ≤ 70 then some (c.toNat - 55)
    else none

/-- Percent-decoding on a character list: `%XY` with hex digits `X`, `Y`
becomes the character of code `16*X + Y`; a `%` not followed by two hex
digits is an error (`none`), every other character passes through.
Models Go's `url.PathUnescape`. -/
def pathUnescapeList : List Char → Option (List Char)
  | [] => some []
  | '%' :: a :: b :: rest =>
    match hexDigitVal a, hexDigitVal b with
    | some ha, some hb =>
      (pathUnescapeList rest).map (fun r => Char.ofNat (16 * ha + hb) :: r)
    | _, _ => none
  | '%' :: _ => none
  | c :: rest => (pathUnescapeList rest).map (fun r => c :: r)

/-- Go `url.PathUnescape` on strings. -/
def pathUnescape (s : String) : Option String :=
  (pathUnescapeList s.toList).map String.mk

/-- `decodeID` from `domain_key_data_source.go`: `url.PathUnescape`. -/
def decodeID (id : String) : Option String :=
  pathUnescape id

/-- `dnsv2.ResourceRecordSet` (the fields the provider sets or reads). -/
structure ResourceRecordSet where
  name : String
  rrdatas : List String
  ttl : Int
  rtype : String
deriving DecidableEq, Repr

/-- `sitev1.SiteVerificationWebResourceResourceSite`. -/
structure SiteVerificationWebResourceResourceSite where
  identifier : String
  rtype : String
deriving DecidableEq, Repr

/-- `sitev1.SiteVerificationWebResourceResource`: request/response body of the
site-verification insert, get and patch endpoints. A Go nil `Owners` slice and
an empty slice are both the empty list here, which is faithful: the provider
never distinguishes them (no `ForceSendFields`). -/
structure SiteVerificationWebResourceResource where
  site : Option SiteVerificationWebResourceResourceSite
  owners : List String
  id : String
deriving DecidableEq, Repr

/-- `sitev1.SiteVerificationWebResourceGettokenRequest` (flattened site). -/
structure SiteVerificationWebResourceGettokenRequest where
  identifier : String
  rtype : String
  verificationMethod : String
deriving DecidableEq, Repr

/-- One remote API call issued by the provider, with its arguments. -/
inductive RemoteCall where
  | dnsCreate (project location zone : String) (record : ResourceRecordSet)
  | dnsGet (project location zone name rtype : String)
  | dnsDelete (project location zone name rtype : String)
  | svInsert (verificationMethod : String) (req : SiteVerificationWebResourceResource)
  | svGet (id : String)
  | svPatch (id : String) (req : SiteVerificationWebResourceResource)
  | svDelete (id : String)
  | svGetToken (req : SiteVerificationWebResourceGettokenRequest)
deriving DecidableEq, Repr

/-- Is this call a site-verification insert? -/
def RemoteCall.isSvInsert : RemoteCall → Bool
  | RemoteCall.svInsert _ _ => true
  | _ => false

/-- Is this call a site-verification get? -/
def RemoteCall.isSvGet : RemoteCall → Bool
  | RemoteCall.svGet _ => true
  | _ => false

/-- Is this call a DNS record-set create? -/
def RemoteCall.isDnsCreate : RemoteCall → Bool
  | RemoteCall.dnsCreate _ _ _ _ => true
  | _ => false

/-- `SiteVerificationClients` from `provider.go` (the service handles are
modelled by the call environments, so only the data fields remain). -/
structure SiteVerificationClients where
  projectID : String
  defaultOwner : String
deriving DecidableEq, Repr

/-- `SiteVerificationResource`: holds the configured clients. -/
structure SiteVerificationResource where
  Clients : SiteVerificationClients
deriving DecidableEq, Repr

/-- `SiteVerificationResourceModel` from `domain_key_data_source.go`. -/
structure SiteVerificationResourceModel where
  project : TFString
  verificationMethod : TFString
  siteIdentifier : TFString
  siteType : TFString
  token : TFString
  managedZone : TFString
  owners : Option (List String)
  id : TFString
deriving DecidableEq, Repr

/-- `SiteVerificationResourceModel.SiteID()`: identifier with one trailing
dot stripped. -/
def SiteVerificationResourceModel.SiteID (s : SiteVerificationResourceModel) : String :=
  goTrimSuffix (s.siteIdentifier.valueString) "."

/-- `DomainKeyDataSourceModel`. -/
structure DomainKeyDataSourceModel where
  verificationMethod : TFString
  siteIdentifier : TFString
  siteType : TFString
  token : TFString
deriving DecidableEq, Repr

deriving instance DecidableEq for Except

/-- Results the DNS zone service would return to each record-set endpoint. -/
structure DNSEnv where
  createResult : Except String Unit
  getResult : Except String ResourceRecordSet
  deleteResult : Except String Unit
deriving DecidableEq, Repr

/-- Results the site-verification service would return to each endpoint.
Insert, get and patch respond with a web-resource body. -/
structure SVEnv where
  insertResult : Except String SiteVerificationWebResourceResource
  getResult : Except String SiteVerificationWebResourceResource
  patchResult : Except String SiteVerificationWebResourceResource
  deleteResult : Except String Unit
deriving DecidableEq, Repr

/-- What an operation did to the tracked Terraform state. -/
inductive StateAction where
  | unchanged
  | removed
  | set (data : SiteVerificationResourceModel)
deriving DecidableEq, Repr

/-- Outcome of one resource operation: error diagnostics added
(summary, detail) in order, and the resulting state action. -/
structure OpResponse where
  diagnostics : List (String × String)
  state : StateAction
deriving DecidableEq, Repr

/-- `parseOwnersFromData`: nil for a null owners list, else the elements
(element extraction cannot fail for a list of known strings, so the Go error
path is unreachable and not modelled). -/
def parseOwnersFromData (data : SiteVerificationResourceModel) : List String :=
  match data.owners with
  | none => []
  | some l => l

/-- `buildSiteVerification`: build the insert/patch request body from the
model. The site block is only attached when `includeSite`; the owners are
appended only when the model's owners list is non-null. -/
def buildSiteVerification (data : SiteVerificationResourceModel) (includeSite : Bool) :
    SiteVerificationWebResourceResource :=
  let greq : SiteVerificationWebResourceResource := { site := none, owners := [], id := "" }
  let greq :=
    if includeSite then
      { greq with site := some { identifier := data.siteIdentifier.valueString
                                 rtype := data.siteType.valueString } }
    else greq
  if !(data.owners.isNone) then
    { greq with owners := greq.owners ++ parseOwnersFromData data }
  else greq

/-- The two null-field defaults applied at the top of `Create` and `Update`:
a null site type becomes INET_DOMAIN, a null verification method DNS_TXT. -/
def defaultSiteFields (data : SiteVerificationResourceModel) : SiteVerificationResourceModel :=
  let data :=
    if data.siteType.isNull then { data with siteType := TFString.value "INET_DOMAIN" } else data
  if data.verificationMethod.isNull then
    { data with verificationMethod := TFString.value "DNS_TXT" }
  else data

/-- `createDNSRecord`: issue one record-set create call carrying the TXT
record {name = forceDot identifier, rrdatas = [token], ttl = 60}. -/
def SiteVerificationResource.createDNSRecord (r : SiteVerificationResource) (env : DNSEnv)
    (data : SiteVerificationResourceModel) : Except String Unit × List RemoteCall :=
  let record : ResourceRecordSet :=
    { name := forceDot (data.siteIdentifier.valueString)
      rrdatas := [data.token.valueString]
      ttl := 60
      rtype := "TXT" }
  (env.createResult,
   [RemoteCall.dnsCreate (data.project.valueString) "global" (data.managedZone.valueString) record])

/-- `readDNSRecord`: issue one record-set get call; on success demand exactly
one TXT value and store it in the model's token, stripped of quoting. -/
def SiteVerificationResource.readDNSRecord (r : SiteVerificationResource) (env : DNSEnv)
    (data : SiteVerificationResourceModel) :
    Except String SiteVerificationResourceModel × List RemoteCall :=
  let call := RemoteCall.dnsGet (data.project.valueString) "global"
    (data.managedZone.valueString) (data.siteIdentifier.valueString) "TXT"
  match env.getResult with
  | Except.error e => (Except.error e, [call])
  | Except.ok gresp =>
    if gresp.rrdatas.length ≠ 1 then
      (Except.error ("Expected 1 TXT record, got " ++ toString gresp.rrdatas.length), [call])
    else
      (Except.ok { data with token := TFString.value (goTrim (gresp.rrdatas.headD "") '"') },
       [call])

/-- `deleteDNSRecord`: issue one record-set delete call. -/
def SiteVerificationResource.deleteDNSRecord (r : SiteVerificationResource) (env : DNSEnv)
    (data : SiteVerificationResourceModel) : Except String Unit × List RemoteCall :=
  (env.deleteResult,
   [RemoteCall.dnsDelete (data.project.valueString) "global" (data.managedZone.valueString)
     (data.siteIdentifier.valueString) "TXT"])

/-- `insertSiteVerification`: build the request with the site block, issue the
insert call, then store the response's owners and its path-unescaped id. -/
def SiteVerificationResource.insertSiteVerification (r : SiteVerificationResource) (env : SVEnv)
    (data : SiteVerificationResourceModel) :
    Except String SiteVerificationResourceModel × List RemoteCall :=
  let greq := buildSiteVerification data true
  let call := RemoteCall.svInsert (data.verificationMethod.valueString) greq
  match env.insertResult with
  | Except.error e => (Except.error e, [call])
  | Except.ok callResp =>
    match decodeID callResp.id with
    | none => (Except.error "invalid URL escape", [call])
    | some id =>
      (Except.ok { data with owners := some callResp.owners, id := TFString.value id }, [call])

/-- `readSiteVerification`: issue the get call keyed by the site id, then
refresh the model's owners from the response. -/
def SiteVerificationResource.readSiteVerification (r : SiteVerificationResource) (env : SVEnv)
    (data : SiteVerificationResourceModel) :
    Except String SiteVerificationResourceModel × List RemoteCall :=
  let call := RemoteCall.svGet data.SiteID
  match env.getResult with
  | Except.error e => (Except.error e, [call])
  | Except.ok resp => (Except.ok { data with owners := some resp.owners }, [call])

/-- `patchSiteVerification`: build the request without the site block, issue
the patch call, then store the request's (not the response's) owners. -/
def SiteVerificationResource.patchSiteVerification (r : SiteVerificationResource) (env : SVEnv)
    (data : SiteVerificationResourceModel) :
    Except String SiteVerificationResourceModel × List RemoteCall :=
  let greq := buildSiteVerification data false
  let call := RemoteCall.svPatch data.SiteID greq
  match env.patchResult with
  | Except.error e => (Except.error e, [call])
  | Except.ok _callResp => (Except.ok { data with owners := some greq.owners }, [call])

/-- `deleteSiteVerification`: issue the delete call keyed by the site id. -/
def SiteVerificationResource.deleteSiteVerification (r : SiteVerificationResource) (env : SVEnv)
    (data : SiteVerificationResourceModel) : Except String Unit × List RemoteCall :=
  (env.deleteResult, [RemoteCall.svDelete data.SiteID])

/-- Tail of `Create` after the DNS branch: insert the site verification and,
on success, set the final state; `prior` is the calls issued so far. -/
def SiteVerificationResource.createPhase2 (r : SiteVerificationResource) (svEnv : SVEnv)
    (data : SiteVerificationResourceModel) (prior : List RemoteCall) :
    OpResponse × List RemoteCall :=
  match r.insertSiteVerification svEnv data with
  | (Except.error e, calls) =>
    ({ diagnostics := [("Error inserting site verification", e)], state := StateAction.unchanged },
     prior ++ calls)
  | (Except.ok data2, calls) =>
    ({ diagnostics := [], state := StateAction.set data2 }, prior ++ calls)

/-- `SiteVerificationResource.Create`: default null site type / verification
method; for a DNS_TXT domain verification, default a null project to the
provider project and write the DNS TXT record, aborting on failure; then
insert the site verification. -/
def SiteVerificationResource.Create (r : SiteVerificationResource) (dnsEnv : DNSEnv)
    (svEnv : SVEnv) (data : SiteVerificationResourceModel) : OpResponse × List RemoteCall :=
  let data := defaultSiteFields data
  if data.siteType.valueString == "INET_DOMAIN" then
    if data.verificationMethod.valueString == "DNS_TXT" then
      let data :=
        if data.project.isNull then { data with project := TFString.value r.Clients.projectID }
        else data
      match r.createDNSRecord dnsEnv data with
      | (Except.error e, calls) =>
        ({ diagnostics := [("Error creating DNS record", e)], state := StateAction.unchanged },
         calls)
      | (Except.ok _, calls) => r.createPhase2 svEnv data calls
    else r.createPhase2 svEnv data []
  else r.createPhase2 svEnv data []

/-- Tail of `Read` after the DNS branch: read the site verification; a
response error containing "404" removes the resource from state, any other
error is surfaced; on success the refreshed model is saved. -/
def SiteVerificationResource.readPhase2 (r : SiteVerificationResource) (svEnv : SVEnv)
    (data : SiteVerificationResourceModel) (prior : List RemoteCall) :
    OpResponse × List RemoteCall :=
  match r.readSiteVerification svEnv data with
  | (Except.error e, calls) =>
    if containsSubstring e "404" then
      ({ diagnostics := [], state := StateAction.removed }, prior ++ calls)
    else
      ({ diagnostics := [("Error reading site verification", e)], state := StateAction.unchanged },
       prior ++ calls)
  | (Except.ok data2, calls) =>
    ({ diagnostics := [], state := StateAction.set data2 }, prior ++ calls)

/-- `SiteVerificationResource.Read`: for a DNS_TXT domain verification, read
the DNS TXT record first — an error containing "404" removes the resource
from state and stops, any other error is surfaced and stops; then read the
site verification with the same 404-means-gone handling. -/
def SiteVerificationResource.Read (r : SiteVerificationResource) (dnsEnv : DNSEnv)
    (svEnv : SVEnv) (data : SiteVerificationResourceModel) : OpResponse × List RemoteCall :=
  if data.siteType.valueString == "INET_DOMAIN" then
    if data.verificationMethod.valueString == "DNS_TXT" then
      match r.readDNSRecord dnsEnv data with
      | (Except.error e, calls) =>
        if containsSubstring e "404" then
          ({ diagnostics := [], state := StateAction.removed }, calls)
        else
          ({ diagnostics := [("Error reading DNS record", e)], state := StateAction.unchanged },
           calls)
      | (Except.ok data1, calls) => r.readPhase2 svEnv data1 calls
    else r.readPhase2 svEnv data []
  else r.readPhase2 svEnv data []

/-- Tail of `Update` after the DNS branch: patch the site verification; a
patch failure is reported as an error but the state is still saved (the Go
code does not return after `AddError` here). -/
def SiteVerificationResource.updatePhase2 (r : SiteVerificationResource) (svEnv : SVEnv)
    (data : SiteVerificationResourceModel) (prior : List RemoteCall) :
    OpResponse × List RemoteCall :=
  match r.patchSiteVerification svEnv data with
  | (Except.error e, calls) =>
    ({ diagnostics := [("Error updating site verification", e)], state := StateAction.set data },
     prior ++ calls)
  | (Except.ok data2, calls) =>
    ({ diagnostics := [], state := StateAction.set data2 }, prior ++ calls)

/-- `SiteVerificationResource.Update`: default null site type / verification
method; for a DNS_TXT domain verification, delete then recreate the DNS TXT
record, aborting on either failure; then patch the site verification. -/
def SiteVerificationResource.Update (r : SiteVerificationResource) (dnsEnv : DNSEnv)
    (svEnv : SVEnv) (data : SiteVerificationResourceModel) : OpResponse × List RemoteCall :=
  let data := defaultSiteFields data
  if data.siteType.valueString == "INET_DOMAIN" then
    if data.verificationMethod.valueString == "DNS_TXT" then
      match r.deleteDNSRecord dnsEnv data with
      | (Except.error e, calls) =>
        ({ diagnostics := [("Error deleting DNS record", e)], state := StateAction.unchanged },
         calls)
      | (Except.ok _, calls) =>
        match r.createDNSRecord dnsEnv data with
        | (Except.error e, calls2) =>
          ({ diagnostics := [("Error updating DNS TXT record", e)],
             state := StateAction.unchanged }, calls ++ calls2)
        | (Except.ok _, calls2) => r.updatePhase2 svEnv data (calls ++ calls2)
    else r.updatePhase2 svEnv data []
  else r.updatePhase2 svEnv data []

/-- Tail of `Delete`: relinquish the site verification; failure is reported
as an error (no rollback of an already performed DNS delete). -/
def SiteVerificationResource.deletePhase2 (r : SiteVerificationResource) (svEnv : SVEnv)
    (data : SiteVerificationResourceModel) (prior : List RemoteCall) :
    OpResponse × List RemoteCall :=
  match r.deleteSiteVerification svEnv data with
  | (Except.error e, calls) =>
    ({ diagnostics := [("Error relinquishing site verification", e)],
       state := StateAction.unchanged }, prior ++ calls)
  | (Except.ok _, calls) =>
    ({ diagnostics := [], state := StateAction.unchanged }, prior ++ calls)

/-- `SiteVerificationResource.Delete`: for a DNS_TXT domain verification,
delete the DNS TXT record first, aborting on failure; then relinquish the
site verification. -/
def SiteVerificationResource.Delete (r : SiteVerificationResource) (dnsEnv : DNSEnv)
    (svEnv : SVEnv) (data : SiteVerificationResourceModel) : OpResponse × List RemoteCall :=
  if data.siteType.valueString == "INET_DOMAIN" then
    if data.verificationMethod.valueString == "DNS_TXT" then
      match r.deleteDNSRecord dnsEnv data with
      | (Except.error e, calls) =>
        ({ diagnostics := [("Error deleting DNS record", e)], state := StateAction.unchanged },
         calls)
      | (Except.ok _, calls) => r.deletePhase2 svEnv data calls
    else r.deletePhase2 svEnv data []
  else r.deletePhase2 svEnv data []

/-- Result the token-issuance endpoint would return: the issued token. -/
structure DSEnv where
  getTokenResult : Except String String
deriving DecidableEq, Repr

/-- Outcome of the domain-key data-source read. -/
inductive DSReadOutcome where
  | errored (summary detail : String)
  | saved (data : DomainKeyDataSourceModel)
deriving DecidableEq, Repr

/-- `DomainKeyDataSource.Read`: default a null site type to INET_DOMAIN and a
null verification method to DNS_TXT, issue exactly one token-issuance
request, and on success store the returned token verbatim. -/
def DomainKeyDataSource.Read (env : DSEnv) (data : DomainKeyDataSourceModel) :
    DSReadOutcome × List RemoteCall :=
  let data :=
    if data.siteType.isNull then { data with siteType := TFString.value "INET_DOMAIN" } else data
  let data :=
    if data.verificationMethod.isNull then
      { data with verificationMethod := TFString.value "DNS_TXT" }
    else data
  let greq : SiteVerificationWebResourceGettokenRequest :=
    { identifier := data.siteIdentifier.valueString
      rtype := data.siteType.valueString
      verificationMethod := data.verificationMethod.valueString }
  let call := RemoteCall.svGetToken greq
  match env.getTokenResult with
  | Except.error e => (DSReadOutcome.errored "Error retrieving verification token" e, [call])
  | Except.ok t => (DSReadOutcome.saved { data with token := TFString.value t }, [call])

/-- `GoogleSiteVerificationProviderModel` (provider configuration). -/
structure GoogleSiteVerificationProviderModel where
  project : TFString
  impersonateServiceAccount : TFString
  tokenDuration : Option Int
deriving DecidableEq, Repr

/-- `google.Credentials` (the project id is the only field the provider
reads or writes). -/
structure Credentials where
  projectID : String
deriving DecidableEq, Repr

/-- Results of the credential and service construction steps performed by
provider `Configure`. The credentials returned by a successful impersonation
carry only a token source in the Go code, so their project id is empty. -/
structure ConfigureEnv where
  defaultCredsResult : Except String Credentials
  impersonationResult : Except String Unit
  oauth2ServiceResult : Except String Unit
  tokenInfoEmailResult : Except String String
  siteVerificationServiceResult : Except String Unit
  dnsServiceResult : Except String Unit
deriving DecidableEq, Repr

/-- `GoogleSiteVerificationProvider.Configure`: load default credentials,
optionally impersonate a service account, override both credential objects'
project id with `data.Project.String()` (the quoted rendering, not the raw
value) when a project is configured, resolve the default owner, build the two
service clients, and expose `{creds.ProjectID, defaultOwner}` as the clients
record. Errors are returned as (summary, detail) diagnostics. -/
def GoogleSiteVerificationProvider.Configure (env : ConfigureEnv)
    (data : GoogleSiteVerificationProviderModel) :
    Except (String × String) SiteVerificationClients :=
  match env.defaultCredsResult with
  | Except.error e => Except.error ("Failed to load default credentials", e)
  | Except.ok defaultCreds =>
    let defaultOwner := ""
    let step :=
      if !data.impersonateServiceAccount.isNull then
        match env.impersonationResult with
        | Except.error e => Except.error e
        | Except.ok _ =>
          Except.ok (data.impersonateServiceAccount.valueString,
                     ({ projectID := "" } : Credentials))
      else Except.ok (defaultOwner, defaultCreds)
    match step with
    | Except.error e => Except.error ("Failed to build credentials", e)
    | Except.ok (defaultOwner, creds) =>
      let creds :=
        if !data.project.isNull then { creds with projectID := data.project.render } else creds
      let ownerStep :=
        if defaultOwner == "" then
          match env.oauth2ServiceResult with
          | Except.error e => Except.error ("Failed to create oauth2 client", e)
          | Except.ok _ =>
            match env.tokenInfoEmailResult with
            | Except.error e => Except.error ("Failed to get token info", e)
            | Except.ok email => Except.ok email
        else Except.ok defaultOwner
      match ownerStep with
      | Except.error d => Except.error d
      | Except.ok defaultOwner =>
        match env.siteVerificationServiceResult with
        | Except.error e => Except.error ("Failed to create siteverification client", e)
        | Except.ok _ =>
          match env.dnsServiceResult with
          | Except.error e => Except.error ("Failed to create dns client", e)
          | Except.ok _ =>
            Except.ok { projectID := creds.projectID, defaultOwner := defaultOwner }

/-- Concrete clients fixture for evaluation witnesses. -/
def exampleClients : SiteVerificationClients :=
  { projectID := "prov-proj", defaultOwner := "owner@x" }

/-- Concrete resource fixture. -/
def exampleResource : SiteVerificationResource := { Clients := exampleClients }

/-- Concrete resource-model fixture. -/
def exampleModel : SiteVerificationResourceModel :=
  { project := TFString.value "p"
    verificationMethod := TFString.value "DNS_TXT"
    siteIdentifier := TFString.value "example.com"
    siteType := TFString.value "INET_DOMAIN"
    token := TFString.value "tok"
    managedZone := TFString.value "zone"
    owners := none
    id := TFString.value "dns://example.com" }

/-- `exampleModel` with an explicitly null owners list. -/
def exampleModelOwnersNull : SiteVerificationResourceModel :=
  { exampleModel with owners := none }

/-- `exampleModel` with an explicitly configured empty owners list. -/
def exampleModelOwnersEmpty : SiteVerificationResourceModel :=
  { exampleModel with owners := some [] }

/-- A server insert response carrying two owners and an escaped id. -/
def exampleWebResource : SiteVerificationWebResourceResource :=
  { site := none, owners := ["a@x", "b@x"], id := "dns%3A%2F%2Fexample.com" }

/-- A server patch response carrying a server-chosen owner set. -/
def examplePatchResponse : SiteVerificationWebResourceResource :=
  { site := none, owners := ["server@x"], id := "dns%3A%2F%2Fexample.com" }

/-- A well-formed remote TXT record holding one quoted value. -/
def exampleRecordSet : ResourceRecordSet :=
  { name := "example.com.", rrdatas := ["\"tok\""], ttl := 60, rtype := "TXT" }

/-- DNS environment in which every endpoint succeeds. -/
def dnsEnvAllOk : DNSEnv :=
  { createResult := Except.ok ()
    getResult := Except.ok exampleRecordSet
    deleteResult := Except.ok () }

/-- DNS environment whose record fetch fails with a remote not-found error. -/
def dnsEnvNotFound : DNSEnv :=
  { dnsEnvAllOk with
    getResult := Except.error "googleapi: Error 404: Requested entity was not found" }

/-- DNS environment whose record create fails. -/
def dnsEnvCreateFail : DNSEnv :=
  { dnsEnvAllOk with createResult := Except.error "quota exceeded" }

/-- DNS environment whose record delete fails. -/
def dnsEnvDeleteFail : DNSEnv :=
  { dnsEnvAllOk with deleteResult := Except.error "zone is locked" }

/-- DNS environment whose record fetch succeeds with 404 TXT values. -/
def dnsEnvMiscounted : DNSEnv :=
  { dnsEnvAllOk with
    getResult := Except.ok
      { name := "example.com.", rrdatas := List.replicate 404 "\"x\"", ttl := 60, rtype := "TXT" } }

/-- DNS environment whose record fetch succeeds with two TXT values. -/
def dnsEnvTwoValues : DNSEnv :=
  { dnsEnvAllOk with
    getResult := Except.ok
      { name := "example.com.", rrdatas := ["\"a\"", "\"b\""], ttl := 60, rtype := "TXT" } }

/-- Site-verification environment in which every endpoint succeeds. -/
def svEnvAllOk : SVEnv :=
  { insertResult := Except.ok exampleWebResource
    getResult := Except.ok exampleWebResource
    patchResult := Except.ok examplePatchResponse
    deleteResult := Except.ok () }

/-- Site-verification environment whose get fails with a not-found error. -/
def svEnvNotFound : SVEnv :=
  { svEnvAllOk with
    getResult := Except.error "googleapi: Error 404: Requested entity was not found" }

/-- Site-verification environment whose delete fails. -/
def svEnvDeleteFail : SVEnv :=
  { svEnvAllOk with deleteResult := Except.error "permission denied" }

/-- Token-issuance environment returning a token. -/
def dsEnvOk : DSEnv := { getTokenResult := Except.ok "issued-token" }

/-- Domain-key data-source model with null optional fields. -/
def exampleDSModel : DomainKeyDataSourceModel :=
  { verificationMethod := TFString.null
    siteIdentifier := TFString.value "example.com"
    siteType := TFString.null
    token := TFString.null }

/-- Configure environment in which every step succeeds. -/
def configureEnvAllOk : ConfigureEnv :=
  { defaultCredsResult := Except.ok { projectID := "ambient-proj" }
    impersonationResult := Except.ok ()
    oauth2ServiceResult := Except.ok ()
    tokenInfoEmailResult := Except.ok "me@x"
    siteVerificationServiceResult := Except.ok ()
    dnsServiceResult := Except.ok () }

/-- Provider configuration fixture with a configured project. -/
def exampleProviderModel : GoogleSiteVerificationProviderModel :=
  { project := TFString.value "my-proj"
    impersonateServiceAccount := TFString.null
    tokenDuration := none }

/-- Helper: a string extended with a dot ends with a dot. -/
theorem goHasSuffix_append_dot (s : String) : goHasSuffix (s ++ ".") "." = true := by
  cases s with
  | mk l =>
    show List.isSuffixOf ['.'] (l ++ ['.']) = true
    rw [List.isSuffixOf_iff_suffix]
    exact List.suffix_append l ['.']

/-- C10: `forceDot` appends a single trailing dot to a string lacking one,
leaves a string already ending in a dot unchanged, and is idempotent. -/
theorem forceDot_spec :
    forceDot "example.com" = "example.com."
    ∧ (∀ s : String, goHasSuffix s "." = true → forceDot s = s)
    ∧ (∀ s : String, forceDot (forceDot s) = forceDot s) := by
  refine ⟨by decide, ?_, ?_⟩
  · intro s h
    simp [forceDot, h]
  · intro s
    by_cases h : goHasSuffix s "." = true
    · simp [forceDot, h]
    · simp only [forceDot, h]
      simp [goHasSuffix_append_dot s]

/-- Witness for C10: `forceDot` at a concrete dotted input. -/
theorem forceDot_spec_witness :
    goHasSuffix "example.com." "." = true ∧ forceDot "example.com." = "example.com." :=
  ⟨by decide, forceDot_spec.2.1 "example.com." (by decide)⟩

set_option maxRecDepth 8192 in
/-- C8 (divergence at the failing input): a Read whose DNS fetch succeeds
with 404 TXT values removes the resource from state with no error, because
the local validation message "Expected 1 TXT record, got 404" contains
"404" and is mistaken for a remote not-found; a fetch with two TXT values
shows the intended validation error for comparison. -/
theorem read_miscount_divergence :
    (SiteVerificationResource.Read exampleResource dnsEnvMiscounted svEnvAllOk exampleModel).1
      = { diagnostics := [], state := StateAction.removed }
    ∧ (SiteVerificationResource.Read exampleResource dnsEnvTwoValues svEnvAllOk exampleModel).1
      = { diagnostics := [("Error reading DNS record", "Expected 1 TXT record, got 2")],
          state := StateAction.unchanged }
    ∧ dnsEnvMiscounted.getResult = Except.ok
        { name := "example.com.", rrdatas := List.replicate 404 "\"x\"", ttl := 60, rtype := "TXT" } := by
  refine ⟨by decide, by decide, rfl⟩

/-- Counterexample for C6: a model with a null owners list and a model with
an explicitly configured empty owners list produce identical built requests,
so the absence is not distinguished from the explicit empty list. -/
theorem build_request_owners_counterexample :
    exampleModelOwnersNull.owners = none
    ∧ exampleModelOwnersEmpty.owners = some []
    ∧ buildSiteVerification exampleModelOwnersNull true
      = buildSiteVerification exampleModelOwnersEmpty true := by
  refine ⟨rfl, rfl, by decide⟩

/-- C6 as amended: a null owners list results in no owners sent in the
request; an explicitly configured empty owners list likewise results in no
owners sent, and the two built requests are identical. -/
theorem build_request_owners_amended (data : SiteVerificationResourceModel) (includeSite : Bool) :
    (data.owners = none → (buildSiteVerification data includeSite).owners = [])
    ∧ (data.owners = some [] → (buildSiteVerification data includeSite).owners = [])
    ∧ buildSiteVerification { data with owners := none } includeSite
      = buildSiteVerification { data with owners := some [] } includeSite := by
  refine ⟨?_, ?_, ?_⟩
  · intro h
    cases includeSite <;> simp [buildSiteVerification, parseOwnersFromData, h]
  · intro h
    cases includeSite <;> simp [buildSiteVerification, parseOwnersFromData, h]
  · cases includeSite <;> simp [buildSiteVerification, parseOwnersFromData]

/-- Witness for the amended C6 at a concrete model. -/
theorem build_request_owners_amended_witness :
    exampleModelOwnersNull.owners = none
    ∧ (buildSiteVerification exampleModelOwnersNull true).owners = [] :=
  ⟨rfl, (build_request_owners_amended exampleModelOwnersNull true).1 rfl⟩

/-- C5: the domain-key data-source read defaults a null site type to
INET_DOMAIN and a null verification method to DNS_TXT, issues exactly one
token-issuance request carrying {identifier, type, method} whether or not the
call fails (no retry), and on success stores the response token verbatim. -/
theorem domain_key_read_spec (env : DSEnv) (data : DomainKeyDataSourceModel) :
    (DomainKeyDataSource.Read env data).2 =
      [RemoteCall.svGetToken
        { identifier := data.siteIdentifier.valueString
          rtype := if data.siteType.isNull then "INET_DOMAIN" else data.siteType.valueString
          verificationMethod :=
            if data.verificationMethod.isNull then "DNS_TXT"
            else data.verificationMethod.valueString }]
    ∧ (∀ t, env.getTokenResult = Except.ok t →
        (DomainKeyDataSource.Read env data).1 = DSReadOutcome.saved
          { verificationMethod :=
              if data.verificationMethod.isNull then TFString.value "DNS_TXT"
              else data.verificationMethod
            siteIdentifier := data.siteIdentifier
            siteType :=
              if data.siteType.isNull then TFString.value "INET_DOMAIN" else data.siteType
            token := TFString.value t })
    ∧ (∀ e, env.getTokenResult = Except.error e →
        (DomainKeyDataSource.Read env data).1 =
          DSReadOutcome.errored "Error retrieving verification token" e) := by
  refine ⟨?_, ?_, ?_⟩
  · cases hst : data.siteType.isNull <;> cases hvm : data.verificationMethod.isNull <;>
      cases hres : env.getTokenResult <;>
        simp [DomainKeyDataSource.Read, TFString.valueString, hst, hvm, hres]
  · intro t ht
    cases hst : data.siteType.isNull <;> cases hvm : data.verificationMethod.isNull <;>
      simp [DomainKeyDataSource.Read, TFString.valueString, hst, hvm, ht]
  · intro e he
    cases hst : data.siteType.isNull <;> cases hvm : data.verificationMethod.isNull <;>
      simp [DomainKeyDataSource.Read, TFString.valueString, hst, hvm, he]

/-- Witness for C5: a concrete read with null optional fields stores the
issued token and the defaulted descriptor. -/
theorem domain_key_read_spec_witness :
    dsEnvOk.getTokenResult = Except.ok "issued-token"
    ∧ (DomainKeyDataSource.Read dsEnvOk exampleDSModel).1 = DSReadOutcome.saved
        { verificationMethod := TFString.value "DNS_TXT"
          siteIdentifier := TFString.value "example.com"
          siteType := TFString.value "INET_DOMAIN"
          token := TFString.value "issued-token" } :=
  ⟨rfl, (domain_key_read_spec dsEnvOk exampleDSModel).2.1 "issued-token" rfl⟩

/-- C1: for a DNS_TXT domain verification, a Read whose DNS record fetch
fails with an error containing "404" removes the resource from tracked state
with no diagnostics and issues no site-verification get; a Read whose DNS leg
succeeds with one TXT value but whose verification get fails with an error
containing "404" likewise removes the resource with no diagnostics. -/
theorem read_not_found_removes (r : SiteVerificationResource) (dnsEnv : DNSEnv) (svEnv : SVEnv)
    (data : SiteVerificationResourceModel)
    (hType : data.siteType.valueString = "INET_DOMAIN")
    (hMethod : data.verificationMethod.valueString = "DNS_TXT") :
    (∀ e, dnsEnv.getResult = Except.error e → containsSubstring e "404" = true →
      (r.Read dnsEnv svEnv data).1 = { diagnostics := [], state := StateAction.removed }
      ∧ (r.Read dnsEnv svEnv data).2.all (fun c => !c.isSvGet) = true)
    ∧ (∀ gresp e, dnsEnv.getResult = Except.ok gresp → gresp.rrdatas.length = 1 →
        svEnv.getResult = Except.error e → containsSubstring e "404" = true →
        (r.Read dnsEnv svEnv data).1 = { diagnostics := [], state := StateAction.removed }) := by
  refine ⟨?_, ?_⟩
  · intro e he h404
    unfold SiteVerificationResource.Read SiteVerificationResource.readDNSRecord
    simp [hType, hMethod, he, h404, RemoteCall.isSvGet]
  · intro gresp e hg hlen hsv h404
    unfold SiteVerificationResource.Read SiteVerificationResource.readDNSRecord
      SiteVerificationResource.readPhase2 SiteVerificationResource.readSiteVerification
    simp [hType, hMethod, hg, hlen, hsv, h404]

/-- Witness for C1: a concrete Read whose DNS record fetch fails with a 404
error removes the resource and issues no verification get. -/
theorem read_not_found_removes_witness :
    (SiteVerificationResource.Read exampleResource dnsEnvNotFound svEnvAllOk exampleModel).1
      = { diagnostics := [], state := StateAction.removed }
    ∧ (SiteVerificationResource.Read exampleResource dnsEnvNotFound svEnvAllOk
        exampleModel).2.all (fun c => !c.isSvGet) = true :=
  (read_not_found_removes exampleResource dnsEnvNotFound svEnvAllOk exampleModel rfl rfl).1
    "googleapi: Error 404: Requested entity was not found" rfl (by decide)

/-- C3: for a DNS_TXT domain verification, Delete issues the DNS record
delete first; a DNS delete failure halts the operation with an error and the
verification delete is never attempted; when the DNS delete succeeds and the
verification delete fails, the failure is reported as an error while the
trace shows the DNS delete already performed, with no compensating call. -/
theorem delete_orders_dns_first (r : SiteVerificationResource) (dnsEnv : DNSEnv) (svEnv : SVEnv)
    (data : SiteVerificationResourceModel)
    (hType : data.siteType.valueString = "INET_DOMAIN")
    (hMethod : data.verificationMethod.valueString = "DNS_TXT") :
    (r.Delete dnsEnv svEnv data).2.head? = some (RemoteCall.dnsDelete
        (data.project.valueString) "global" (data.managedZone.valueString)
        (data.siteIdentifier.valueString) "TXT")
    ∧ (∀ e, dnsEnv.deleteResult = Except.error e →
        (r.Delete dnsEnv svEnv data).1 =
          { diagnostics := [("Error deleting DNS record", e)], state := StateAction.unchanged }
        ∧ (r.Delete dnsEnv svEnv data).2 =
          [RemoteCall.dnsDelete (data.project.valueString) "global"
            (data.managedZone.valueString) (data.siteIdentifier.valueString) "TXT"])
    ∧ (∀ e, dnsEnv.deleteResult = Except.ok () → svEnv.deleteResult = Except.error e →
        (r.Delete dnsEnv svEnv data).1 =
          { diagnostics := [("Error relinquishing site verification", e)],
            state := StateAction.unchanged }
        ∧ (r.Delete dnsEnv svEnv data).2 =
          [RemoteCall.dnsDelete (data.project.valueString) "global"
            (data.managedZone.valueString) (data.siteIdentifier.valueString) "TXT",
           RemoteCall.svDelete data.SiteID]) := by
  refine ⟨?_, ?_, ?_⟩
  · unfold SiteVerificationResource.Delete SiteVerificationResource.deleteDNSRecord
      SiteVerificationResource.deletePhase2 SiteVerificationResource.deleteSiteVerification
    cases hd : dnsEnv.deleteResult <;> cases hs : svEnv.deleteResult <;>
      simp [hType, hMethod, hd, hs]
  · intro e hd
    unfold SiteVerificationResource.Delete SiteVerificationResource.deleteDNSRecord
    simp [hType, hMethod, hd]
  · intro e hd hs
    unfold SiteVerificationResource.Delete SiteVerificationResource.deleteDNSRecord
      SiteVerificationResource.deletePhase2 SiteVerificationResource.deleteSiteVerification
    simp [hType, hMethod, hd, hs]

/-- Witness for C3: a concrete Delete whose verification delete fails still
performed the DNS delete first and reports the failure as an error. -/
theorem delete_orders_dns_first_witness :
    (SiteVerificationResource.Delete exampleResource dnsEnvAllOk svEnvDeleteFail exampleModel).1
      = { diagnostics := [("Error relinquishing site verification", "permission denied")],
          state := StateAction.unchanged }
    ∧ (SiteVerificationResource.Delete exampleResource dnsEnvAllOk svEnvDeleteFail
        exampleModel).2 =
      [RemoteCall.dnsDelete "p" "global" "zone" "example.com" "TXT",
       RemoteCall.svDelete "example.com"] :=
  (delete_orders_dns_first exampleResource dnsEnvAllOk svEnvDeleteFail exampleModel rfl rfl).2.2
    "permission denied" rfl rfl

/-- Evaluation rule for `TFString.valueString` on a known value. -/
theorem TFString.valueString_value (s : String) : (TFString.value s).valueString = s := rfl

/-- Evaluation rule for `TFString.isNull` on a known value. -/
theorem TFString.isNull_value (s : String) : (TFString.value s).isNull = false := rfl

/-- Helper: the insert phase always issues exactly one insert call carrying
the request built from the model with its site block, appended to the calls
already issued. -/
theorem createPhase2_calls (r : SiteVerificationResource) (svEnv : SVEnv)
    (data : SiteVerificationResourceModel) (prior : List RemoteCall) :
    (r.createPhase2 svEnv data prior).2 =
      prior ++ [RemoteCall.svInsert (data.verificationMethod.valueString)
                 (buildSiteVerification data true)] := by
  unfold SiteVerificationResource.createPhase2 SiteVerificationResource.insertSiteVerification
  cases hres : svEnv.insertResult with
  | error e => simp [hres]
  | ok resp => cases hid : decodeID resp.id <;> simp [hres, hid]

/-- Helper: when the insert succeeds and its id decodes, the create phase
saves the model with the response's owners and the decoded id. -/
theorem createPhase2_owners (r : SiteVerificationResource) (svEnv : SVEnv)
    (data : SiteVerificationResourceModel) (prior : List RemoteCall)
    (resp : SiteVerificationWebResourceResource) (i : String)
    (hins : svEnv.insertResult = Except.ok resp) (hid : decodeID resp.id = some i) :
    (r.createPhase2 svEnv data prior).1 =
      { diagnostics := []
        state := StateAction.set
          { data with owners := some resp.owners, id := TFString.value i } } := by
  unfold SiteVerificationResource.createPhase2 SiteVerificationResource.insertSiteVerification
  simp [hins, hid]

/-- Helper: when the patch succeeds, the update phase saves the model with
the owners of the patch request (built without the site block). -/
theorem updatePhase2_owners (r : SiteVerificationResource) (svEnv : SVEnv)
    (data : SiteVerificationResourceModel) (prior : List RemoteCall)
    (resp : SiteVerificationWebResourceResource)
    (hp : svEnv.patchResult = Except.ok resp) :
    (r.updatePhase2 svEnv data prior).1 =
      { diagnostics := []
        state := StateAction.set
          { data with owners := some (buildSiteVerification data false).owners } } := by
  unfold SiteVerificationResource.updatePhase2 SiteVerificationResource.patchSiteVerification
  simp [hp]

/-- Helper: the DNS-defaulting branch of Create issues the DNS create call
first, carrying the defaulted project and the TXT record. -/
theorem create_first_call (r : SiteVerificationResource) (dnsEnv : DNSEnv) (svEnv : SVEnv)
    (data : SiteVerificationResourceModel)
    (hType : (defaultSiteFields data).siteType.valueString = "INET_DOMAIN")
    (hMethod : (defaultSiteFields data).verificationMethod.valueString = "DNS_TXT") :
    (r.Create dnsEnv svEnv data).2.head? = some (RemoteCall.dnsCreate
      (if (defaultSiteFields data).project.isNull then r.Clients.projectID
       else (defaultSiteFields data).project.valueString)
      "global" ((defaultSiteFields data).managedZone.valueString)
      { name := forceDot ((defaultSiteFields data).siteIdentifier.valueString)
        rrdatas := [(defaultSiteFields data).token.valueString]
        ttl := 60
        rtype := "TXT" }) := by
  unfold SiteVerificationResource.Create SiteVerificationResource.createDNSRecord
  cases hp : (defaultSiteFields data).project.isNull <;>
    cases hc : dnsEnv.createResult <;>
      simp [hType, hMethod, hp, hc, createPhase2_calls, TFString.valueString_value]

/-- C2: for a Create that is a DNS_TXT domain verification after defaulting,
the first remote call is the DNS record create carrying the project defaulted
to the provider project when null; if the DNS write fails the operation stops
with an error and no insert call appears in the trace; if the DNS write
succeeds the trace is exactly the DNS create followed by the insert. -/
theorem create_dns_before_insert (r : SiteVerificationResource) (dnsEnv : DNSEnv) (svEnv : SVEnv)
    (data : SiteVerificationResourceModel)
    (hType : (defaultSiteFields data).siteType.valueString = "INET_DOMAIN")
    (hMethod : (defaultSiteFields data).verificationMethod.valueString = "DNS_TXT") :
    (r.Create dnsEnv svEnv data).2.head? = some (RemoteCall.dnsCreate
      (if (defaultSiteFields data).project.isNull then r.Clients.projectID
       else (defaultSiteFields data).project.valueString)
      "global" ((defaultSiteFields data).managedZone.valueString)
      { name := forceDot ((defaultSiteFields data).siteIdentifier.valueString)
        rrdatas := [(defaultSiteFields data).token.valueString]
        ttl := 60
        rtype := "TXT" })
    ∧ (∀ e, dnsEnv.createResult = Except.error e →
        (r.Create dnsEnv svEnv data).2.length = 1
        ∧ (r.Create dnsEnv svEnv data).2.all (fun c => !c.isSvInsert) = true
        ∧ (r.Create dnsEnv svEnv data).1 =
            { diagnostics := [("Error creating DNS record", e)], state := StateAction.unchanged })
    ∧ (dnsEnv.createResult = Except.ok () →
        ∃ first req, (r.Create dnsEnv svEnv data).2 =
            [first, RemoteCall.svInsert
              ((defaultSiteFields data).verificationMethod.valueString) req]
          ∧ first.isDnsCreate = true) := by
  refine ⟨create_first_call r dnsEnv svEnv data hType hMethod, ?_, ?_⟩
  · intro e he
    unfold SiteVerificationResource.Create SiteVerificationResource.createDNSRecord
    cases hp : (defaultSiteFields data).project.isNull <;>
      simp [hType, hMethod, hp, he, RemoteCall.isSvInsert]
  · intro hok
    cases hp : (defaultSiteFields data).project.isNull
    case false =>
      refine ⟨RemoteCall.dnsCreate ((defaultSiteFields data).project.valueString) "global"
          ((defaultSiteFields data).managedZone.valueString)
          { name := forceDot ((defaultSiteFields data).siteIdentifier.valueString)
            rrdatas := [(defaultSiteFields data).token.valueString]
            ttl := 60
            rtype := "TXT" },
        buildSiteVerification (defaultSiteFields data) true, ?_, rfl⟩
      unfold SiteVerificationResource.Create SiteVerificationResource.createDNSRecord
      simp [hType, hMethod, hp, hok, createPhase2_calls]
    case true =>
      refine ⟨RemoteCall.dnsCreate r.Clients.projectID "global"
          ((defaultSiteFields data).managedZone.valueString)
          { name := forceDot ((defaultSiteFields data).siteIdentifier.valueString)
            rrdatas := [(defaultSiteFields data).token.valueString]
            ttl := 60
            rtype := "TXT" },
        buildSiteVerification
          { defaultSiteFields data with project := TFString.value r.Clients.projectID } true,
        ?_, rfl⟩
      unfold SiteVerificationResource.Create SiteVerificationResource.createDNSRecord
      simp [hType, hMethod, hp, hok, createPhase2_calls, TFString.valueString_value]

/-- Witness for C2: a concrete Create whose DNS write fails issues no
insert call. -/
theorem create_dns_before_insert_witness :
    (SiteVerificationResource.Create exampleResource dnsEnvCreateFail svEnvAllOk
        exampleModel).2.length = 1
    ∧ (SiteVerificationResource.Create exampleResource dnsEnvCreateFail svEnvAllOk
        exampleModel).2.all (fun c => !c.isSvInsert) = true
    ∧ (SiteVerificationResource.Create exampleResource dnsEnvCreateFail svEnvAllOk
        exampleModel).1 =
        { diagnostics := [("Error creating DNS record", "quota exceeded")],
          state := StateAction.unchanged } :=
  ((create_dns_before_insert exampleResource dnsEnvCreateFail svEnvAllOk exampleModel
    rfl rfl).2.1) "quota exceeded" rfl

/-- C4: on a successful Create the saved owners are exactly the owner list of
the server's insert response, while on a successful Update the saved owners
are exactly the owners of the patch request built from the configured model,
independent of the server's patch response. -/
theorem owners_authority_asymmetric :
    (∀ (r : SiteVerificationResource) (dnsEnv : DNSEnv) (svEnv : SVEnv)
       (data : SiteVerificationResourceModel)
       (resp : SiteVerificationWebResourceResource) (i : String),
       svEnv.insertResult = Except.ok resp → decodeID resp.id = some i →
       dnsEnv.createResult = Except.ok () →
       ∃ d, (r.Create dnsEnv svEnv data).1 =
           { diagnostics := [], state := StateAction.set d }
         ∧ d.owners = some resp.owners)
    ∧ (∀ (r : SiteVerificationResource) (dnsEnv : DNSEnv) (svEnv : SVEnv)
       (data : SiteVerificationResourceModel)
       (resp : SiteVerificationWebResourceResource),
       svEnv.patchResult = Except.ok resp →
       dnsEnv.deleteResult = Except.ok () → dnsEnv.createResult = Except.ok () →
       ∃ d, (r.Update dnsEnv svEnv data).1 =
           { diagnostics := [], state := StateAction.set d }
         ∧ d.owners = some (buildSiteVerification (defaultSiteFields data) false).owners) := by
  refine ⟨?_, ?_⟩
  · intro r dnsEnv svEnv data resp i hins hid hdns
    have key : ∀ (d : SiteVerificationResourceModel) (prior : List RemoteCall),
        ∃ dd, (r.createPhase2 svEnv d prior).1 =
            { diagnostics := [], state := StateAction.set dd }
          ∧ dd.owners = some resp.owners :=
      fun d prior => ⟨{ d with owners := some resp.owners, id := TFString.value i },
        createPhase2_owners r svEnv d prior resp i hins hid, rfl⟩
    unfold SiteVerificationResource.Create SiteVerificationResource.createDNSRecord
    cases hty : ((defaultSiteFields data).siteType.valueString == "INET_DOMAIN") <;>
      cases hvm : ((defaultSiteFields data).verificationMethod.valueString == "DNS_TXT") <;>
        cases hpn : (defaultSiteFields data).project.isNull <;>
          simp [hty, hvm, hpn, hdns] <;> apply key
  · intro r dnsEnv svEnv data resp hpatch hdel hcre
    have key : ∀ (d : SiteVerificationResourceModel) (prior : List RemoteCall),
        ∃ dd, (r.updatePhase2 svEnv d prior).1 =
            { diagnostics := [], state := StateAction.set dd }
          ∧ dd.owners = some (buildSiteVerification d false).owners :=
      fun d prior => ⟨{ d with owners := some (buildSiteVerification d false).owners },
        updatePhase2_owners r svEnv d prior resp hpatch, rfl⟩
    unfold SiteVerificationResource.Update SiteVerificationResource.deleteDNSRecord
      SiteVerificationResource.createDNSRecord
    cases hty : ((defaultSiteFields data).siteType.valueString == "INET_DOMAIN") <;>
      cases hvm : ((defaultSiteFields data).verificationMethod.valueString == "DNS_TXT") <;>
        simp [hty, hvm, hdel, hcre] <;> apply key

/-- Witness for C4: a concrete Create stores the server's returned owner set
even though the client configured no owners. -/
theorem owners_authority_asymmetric_witness :
    ∃ d, (SiteVerificationResource.Create exampleResource dnsEnvAllOk svEnvAllOk
          exampleModel).1 =
        { diagnostics := [], state := StateAction.set d }
      ∧ d.owners = some ["a@x", "b@x"] :=
  owners_authority_asymmetric.1 exampleResource dnsEnvAllOk svEnvAllOk exampleModel
    exampleWebResource "dns://example.com" rfl (by decide) rfl

/-- Helper: the patch phase always issues exactly one patch call carrying the
request built from the model without its site block. -/
theorem updatePhase2_calls (r : SiteVerificationResource) (svEnv : SVEnv)
    (data : SiteVerificationResourceModel) (prior : List RemoteCall) :
    (r.updatePhase2 svEnv data prior).2 =
      prior ++ [RemoteCall.svPatch data.SiteID (buildSiteVerification data false)] := by
  unfold SiteVerificationResource.updatePhase2 SiteVerificationResource.patchSiteVerification
  cases h : svEnv.patchResult <;> simp [h]

/-- Helper: defaulting the site type and verification method touches no other
field of the model. -/
theorem defaultSiteFields_preserves (data : SiteVerificationResourceModel) :
    (defaultSiteFields data).siteIdentifier = data.siteIdentifier
    ∧ (defaultSiteFields data).token = data.token
    ∧ (defaultSiteFields data).project = data.project
    ∧ (defaultSiteFields data).managedZone = data.managedZone
    ∧ (defaultSiteFields data).owners = data.owners := by
  unfold defaultSiteFields
  cases h1 : data.siteType.isNull <;> cases h2 : data.verificationMethod.isNull <;>
    simp [h1, h2]

/-- Counterexample for C7: the record written by a concrete Create carries
the raw token string "tok" as its value, not the quoted string produced by
quoting the token. -/
theorem dns_record_quoting_counterexample :
    (SiteVerificationResource.Create exampleResource dnsEnvAllOk svEnvAllOk exampleModel).2.head?
      = some (RemoteCall.dnsCreate "p" "global" "zone"
          { name := "example.com.", rrdatas := ["tok"], ttl := 60, rtype := "TXT" })
    ∧ exampleModel.token = TFString.value "tok"
    ∧ ("tok" : String) ≠ goQuote "tok" := by
  refine ⟨by decide, rfl, by decide⟩

/-- C7 as amended: every DNS record create issued by Create or Update writes
a record whose name is the site identifier with a trailing dot appended when
absent, whose type is TXT, whose ttl is 60, and whose single value is the raw
token string (not quoted). -/
theorem dns_record_shape_amended (r : SiteVerificationResource) (dnsEnv : DNSEnv) (svEnv : SVEnv)
    (data : SiteVerificationResourceModel) :
    (∀ c ∈ (r.Create dnsEnv svEnv data).2, ∀ p l z rec, c = RemoteCall.dnsCreate p l z rec →
       rec.name = forceDot (data.siteIdentifier.valueString)
       ∧ rec.rtype = "TXT" ∧ rec.ttl = 60
       ∧ rec.rrdatas = [data.token.valueString])
    ∧ (∀ c ∈ (r.Update dnsEnv svEnv data).2, ∀ p l z rec, c = RemoteCall.dnsCreate p l z rec →
       rec.name = forceDot (data.siteIdentifier.valueString)
       ∧ rec.rtype = "TXT" ∧ rec.ttl = 60
       ∧ rec.rrdatas = [data.token.valueString]) := by
  obtain ⟨hsi, htok, -, -, -⟩ := defaultSiteFields_preserves data
  refine ⟨?_, ?_⟩
  · intro c hc p l z rec hEq
    subst hEq
    unfold SiteVerificationResource.Create SiteVerificationResource.createDNSRecord at hc
    cases hty : ((defaultSiteFields data).siteType.valueString == "INET_DOMAIN") <;>
      cases hvm : ((defaultSiteFields data).verificationMethod.valueString == "DNS_TXT") <;>
        cases hpn : (defaultSiteFields data).project.isNull <;>
          cases hdns : dnsEnv.createResult <;>
            simp [hty, hvm, hpn, hdns, createPhase2_calls] at hc <;>
              obtain ⟨-, -, -, hrec⟩ := hc <;> subst hrec <;> simp [hsi, htok]
  · intro c hc p l z rec hEq
    subst hEq
    unfold SiteVerificationResource.Update SiteVerificationResource.deleteDNSRecord
      SiteVerificationResource.createDNSRecord at hc
    cases hty : ((defaultSiteFields data).siteType.valueString == "INET_DOMAIN") <;>
      cases hvm : ((defaultSiteFields data).verificationMethod.valueString == "DNS_TXT") <;>
        cases hdel : dnsEnv.deleteResult <;>
          cases hdns : dnsEnv.createResult <;>
            simp [hty, hvm, hdel, hdns, updatePhase2_calls] at hc <;>
              obtain ⟨-, -, -, hrec⟩ := hc <;> subst hrec <;> simp [hsi, htok]

/-- Witness for the amended C7: the concrete record written by a Create. -/
theorem dns_record_shape_amended_witness :
    RemoteCall.dnsCreate "p" "global" "zone"
        { name := "example.com.", rrdatas := ["tok"], ttl := 60, rtype := "TXT" }
      ∈ (SiteVerificationResource.Create exampleResource dnsEnvAllOk svEnvAllOk exampleModel).2
    ∧ ({ name := "example.com.", rrdatas := ["tok"], ttl := 60,
         rtype := "TXT" } : ResourceRecordSet).name
        = forceDot (exampleModel.siteIdentifier.valueString) :=
  ⟨by decide,
   ((dns_record_shape_amended exampleResource dnsEnvAllOk svEnvAllOk exampleModel).1
      _ (by decide) "p" "global" "zone" _ rfl).1⟩

/-- Helper: escaping a list of characters that need no escape is the
identity. -/
theorem goEscapeChar_flatten {l : List Char} (h : ∀ c ∈ l, goEscapeChar c = [c]) :
    (l.map goEscapeChar).flatten = l := by
  induction l with
  | nil => rfl
  | cons c t ih =>
    simp only [List.map_cons, List.flatten_cons, h c (List.mem_cons_self c t),
      ih (fun x hx => h x (List.mem_cons_of_mem c hx)), List.singleton_append]

/-- Helper: quoting a string of plain characters wraps it in literal double
quotes. -/
theorem goQuote_plain (s : String) (h : ∀ c ∈ s.toList, goEscapeChar c = [c]) :
    goQuote s = "\"" ++ s ++ "\"" := by
  unfold goQuote
  rw [goEscapeChar_flatten h]
  cases s with
  | mk l => rfl

/-- Helper: wrapping a string in quotes changes it. -/
theorem quote_wrap_ne (p : String) : ("\"" ++ p ++ "\"" : String) ≠ p := by
  intro h
  have hlen1 : ("\"" : String).length = 1 := by decide
  have hl := congrArg String.length h
  rw [String.length_append, String.length_append, hlen1] at hl
  omega

/-- C9: when the provider configuration carries a non-null project `p` (of
ordinary characters) and every configure step succeeds, the constructed
clients carry a ProjectID equal to `p` wrapped in literal double quotes —
not the raw `p` — and a subsequent Create with a null resource project uses
exactly that quoted string as the project of its DNS record create call. -/
theorem configure_quotes_project (env : ConfigureEnv) (data : GoogleSiteVerificationProviderModel)
    (p : String) (creds0 : Credentials) (email : String)
    (hp : data.project = TFString.value p)
    (hplain : ∀ c ∈ p.toList, goEscapeChar c = [c])
    (hcreds : env.defaultCredsResult = Except.ok creds0)
    (himp : env.impersonationResult = Except.ok ())
    (hoauth : env.oauth2ServiceResult = Except.ok ())
    (hemail : env.tokenInfoEmailResult = Except.ok email)
    (hsv : env.siteVerificationServiceResult = Except.ok ())
    (hdnss : env.dnsServiceResult = Except.ok ()) :
    ∃ clients, GoogleSiteVerificationProvider.Configure env data = Except.ok clients
      ∧ clients.projectID = "\"" ++ p ++ "\""
      ∧ clients.projectID ≠ p
      ∧ (∀ (dnsEnv : DNSEnv) (svEnv : SVEnv) (model : SiteVerificationResourceModel),
          (defaultSiteFields model).siteType.valueString = "INET_DOMAIN" →
          (defaultSiteFields model).verificationMethod.valueString = "DNS_TXT" →
          (defaultSiteFields model).project.isNull = true →
          ((SiteVerificationResource.mk clients).Create dnsEnv svEnv model).2.head? =
            some (RemoteCall.dnsCreate ("\"" ++ p ++ "\"") "global"
              ((defaultSiteFields model).managedZone.valueString)
              { name := forceDot ((defaultSiteFields model).siteIdentifier.valueString)
                rrdatas := [(defaultSiteFields model).token.valueString]
                ttl := 60
                rtype := "TXT" })) := by
  have hq : (TFString.value p).render = "\"" ++ p ++ "\"" := goQuote_plain p hplain
  have finish : ∀ owner : String,
      ∀ (dnsEnv : DNSEnv) (svEnv : SVEnv) (model : SiteVerificationResourceModel),
        (defaultSiteFields model).siteType.valueString = "INET_DOMAIN" →
        (defaultSiteFields model).verificationMethod.valueString = "DNS_TXT" →
        (defaultSiteFields model).project.isNull = true →
        ((SiteVerificationResource.mk
            { projectID := "\"" ++ p ++ "\"", defaultOwner := owner }).Create
          dnsEnv svEnv model).2.head? =
          some (RemoteCall.dnsCreate ("\"" ++ p ++ "\"") "global"
            ((defaultSiteFields model).managedZone.valueString)
            { name := forceDot ((defaultSiteFields model).siteIdentifier.valueString)
              rrdatas := [(defaultSiteFields model).token.valueString]
              ttl := 60
              rtype := "TXT" }) := by
    intro owner dnsEnv svEnv model hty hvm hpn
    have h := create_first_call (SiteVerificationResource.mk
      { projectID := "\"" ++ p ++ "\"", defaultOwner := owner }) dnsEnv svEnv model hty hvm
    rw [hpn] at h
    simpa using h
  cases himpn : data.impersonateServiceAccount.isNull with
  | true =>
    refine ⟨{ projectID := "\"" ++ p ++ "\"", defaultOwner := email }, ?_, rfl,
      quote_wrap_ne p, finish email⟩
    unfold GoogleSiteVerificationProvider.Configure
    simp [hcreds, hp, himp, hoauth, hemail, hsv, hdnss, himpn, hq, TFString.isNull_value]
  | false =>
    cases hes : (data.impersonateServiceAccount.valueString == "") with
    | true =>
      refine ⟨{ projectID := "\"" ++ p ++ "\"", defaultOwner := email }, ?_, rfl,
        quote_wrap_ne p, finish email⟩
      unfold GoogleSiteVerificationProvider.Configure
      simp [hcreds, hp, himp, hoauth, hemail, hsv, hdnss, himpn, hes, hq, TFString.isNull_value]
    | false =>
      refine ⟨{ projectID := "\"" ++ p ++ "\""
                defaultOwner := data.impersonateServiceAccount.valueString }, ?_, rfl,
        quote_wrap_ne p, finish _⟩
      unfold GoogleSiteVerificationProvider.Configure
      simp [hcreds, hp, himp, hoauth, hemail, hsv, hdnss, himpn, hes, hq, TFString.isNull_value]

/-- Witness for C9: a concrete configuration with project "my-proj" yields
clients whose ProjectID is the quoted string. -/
theorem configure_quotes_project_witness :
    ∃ clients, GoogleSiteVerificationProvider.Configure configureEnvAllOk exampleProviderModel
        = Except.ok clients
      ∧ clients.projectID = "\"" ++ "my-proj" ++ "\""
      ∧ clients.projectID ≠ "my-proj"
      ∧ (∀ (dnsEnv : DNSEnv) (svEnv : SVEnv) (model : SiteVerificationResourceModel),
          (defaultSiteFields model).siteType.valueString = "INET_DOMAIN" →
          (defaultSiteFields model).verificationMethod.valueString = "DNS_TXT" →
          (defaultSiteFields model).project.isNull = true →
          ((SiteVerificationResource.mk clients).Create dnsEnv svEnv model).2.head? =
            some (RemoteCall.dnsCreate ("\"" ++ "my-proj" ++ "\"") "global"
              ((defaultSiteFields model).managedZone.valueString)
              { name := forceDot ((defaultSiteFields model).siteIdentifier.valueString)
                rrdatas := [(defaultSiteFields model).token.valueString]
                ttl := 60
                rtype := "TXT" })) :=
  configure_quotes_project configureEnvAllOk exampleProviderModel "my-proj"
    { projectID := "ambient-proj" } "me@x" rfl (by decide) rfl rfl rfl rfl rfl rfl
